import Mathlib

/-!
Verification of the CSV-to-record loading pipeline of the portfolio website
(`app.py`, class `PortfolioData`), shallowly embedded in Lean.

The embedding models, faithfully to the Python source:
* `csv.DictReader` over an unquoted comma-separated file: the first line
  holds the column names; each later non-blank line becomes a dict from
  column name to cell value; a row shorter than the header is padded with
  the restval of the reader, which is None.
* `PortfolioData._load_from_csv` with its existence check, its
  `try`/`except` around the whole read, and its per-row validation
  `all(field in row for field in expected_fields)`.
* `PortfolioData.load_projects` with its defaulting of falsy fields and its
  unguarded `row["is_current"].lower()` call.
* `PortfolioData.load_certifications`, `load_blog_posts` (pass-through) and
  `get_portfolio_data` (the aggregate view-model).

Python exceptions are modelled with `Except String`; the diagnostics the
code sends to `logging` are returned explicitly as a list of `Diag`.
-/

namespace Portfolio

/-- Python `str.lower`, for the ASCII content this program handles. -/
def pyLower (s : String) : String := String.mk (s.data.map Char.toLower)

/-- Python case-insensitive string comparison: equal after lowering. -/
def caseInsensitiveEq (a b : String) : Prop := pyLower a = pyLower b

instance (a b : String) : Decidable (caseInsensitiveEq a b) := by
  unfold caseInsensitiveEq; infer_instance

/-- Python str.split with a comma separator: split on every comma and keep
empty pieces, so the empty string yields one empty piece and a trailing
comma yields a trailing empty piece. -/
def pySplit (s : String) : List String := (s.data.splitOn ',').map String.mk

/-- Python string join of `names` with a comma separator. -/
def pyJoin (names : List String) : String :=
  String.mk (List.intercalate [','] (names.map String.data))

/-- One line as the reader of the csv module tokenizes it: a blank line gives
the empty row `[]`, any other line is split on commas.  The data files use
no quoting, so the quoting layer of the `csv` module never fires. -/
def parseLine (l : String) : List String := if l = "" then [] else pySplit l

/-- A row as `csv.DictReader` hands it to the loader: an insertion-ordered
dict from column name to cell, where a cell is `none` when the row was
shorter than the header (`DictReader` pads short rows with its `restval`,
`None`).  Cells beyond the header go under the non-string `restkey` key
`None`, which no string lookup in the program can reach, so they are not
recorded. -/
abbrev PyRow := List (String × Option String)

/-- Python dict lookup on a row: `some v` when the key is present bound to
`v`, `none` when the key is absent.  A Python dict keeps the last binding
of a duplicated key, hence the `reverse`. -/
def rLookup (row : PyRow) (f : String) : Option (Option String) :=
  row.reverse.lookup f

/-- Python dict(zip(self.fieldnames, row)) followed by the DictReader
padding of a short row with `restval = None`: every field name becomes a key. -/
def rowToDict (fieldnames : List String) (values : List String) : PyRow :=
  fieldnames.zip
    (values.map some ++ List.replicate (fieldnames.length - values.length) none)

/-- Severity of a message sent to `logging`. -/
inductive Level where
  | warning
  | error
deriving DecidableEq

/-- One message sent to `logging`. -/
structure Diag where
  level : Level
  msg : String
deriving DecidableEq

/-- The state the file system can present for one data file: absent,
or present with the given lines, where `readFails` records that reading
raises an I/O or decoding exception partway through instead of delivering
the lines. -/
inductive FileState where
  | missing
  | readable (lines : List String) (readFails : Bool)
deriving DecidableEq

/-- The row-validation test of `_load_from_csv`:
`all(field in row for field in expected_fields)`. -/
def validRow (expected : List String) (row : PyRow) : Bool :=
  expected.all fun f => (rLookup row f).isSome

/-- The `for row in reader` loop of `_load_from_csv`: keep each valid row,
in order, and log a warning for each skipped one.  `DictReader` itself
skips blank lines before they reach the loop body. -/
def processRows (path : String) (fieldnames expected : List String) :
    List String → List PyRow × List Diag
  | [] => ([], [])
  | l :: ls =>
    let rest := processRows path fieldnames expected ls
    if l = "" then rest
    else
      let row := rowToDict fieldnames (pySplit l)
      if validRow expected row then (row :: rest.1, rest.2)
      else (rest.1, ⟨.warning, "Skipping invalid row in " ++ path⟩ :: rest.2)

/-- The function `PortfolioData._load_from_csv`.  The `Except` result type leaves room
for an uncaught Python exception; the body wraps its whole read in
`try`/`except Exception`, so it in fact always returns `.ok`.  When the
read raises partway through (`readFails`), the rows already accumulated in
the local `data` list are discarded by the jump to the handler, which
returns the empty list with an error diagnostic. -/
def load_from_csv (fs : FileState) (path : String) (expected : List String) :
    Except String (List PyRow × List Diag) :=
  match fs with
  | .missing =>
      pure ([], [⟨.warning, path ++ " not found. Returning empty list."⟩])
  | .readable _ true =>
      pure ([], [⟨.error, "Error reading " ++ path⟩])
  | .readable [] false => pure ([], [])
  | .readable (header :: dataLines) false =>
      pure (processRows path (parseLine header) expected dataLines)

/-- Required columns for `data/certifications.csv`. -/
def certFields : List String := ["title", "issuer", "date", "category", "url"]

/-- Required columns for `data/projects.csv`. -/
def projectFields : List String :=
  ["title", "description", "tech_stack", "category", "github_url",
   "demo_url", "is_current", "image_url"]

/-- Required columns for `data/blog_posts.csv`. -/
def blogFields : List String :=
  ["title", "date", "description", "url", "image_url"]

/-- The function `PortfolioData.load_certifications`: a pass-through of the validated
rows, no value transformation. -/
def load_certifications (fs : FileState) :
    Except String (List PyRow × List Diag) :=
  load_from_csv fs "data/certifications.csv" certFields

/-- The function `PortfolioData.load_blog_posts`: a pass-through of the validated rows,
no value transformation. -/
def load_blog_posts (fs : FileState) :
    Except String (List PyRow × List Diag) :=
  load_from_csv fs "data/blog_posts.csv" blogFields

/-- A normalized project, the dict built per row by `load_projects`. -/
structure ProjectRecord where
  title : String
  description : String
  tech_stack : List String
  category : String
  github_url : String
  demo_url : String
  is_current : Bool
  image_url : String
deriving DecidableEq

/-- Python `row[f]`: raises `KeyError` when the key is absent. -/
def getItem (row : PyRow) (f : String) : Except String (Option String) :=
  match rLookup row f with
  | some v => pure v
  | none => Except.error ("KeyError: " ++ f)

/-- Python `v or d` for `v` a `str` or `None`: `None` and the empty string
are falsy, any other string is returned unchanged. -/
def pyOr (v : Option String) (d : String) : String :=
  match v with
  | none => d
  | some s => if s = "" then d else s

/-- The `tech_stack` expression of `load_projects`:
`row["tech_stack"].split(",") if row["tech_stack"] else ["Unknown"]`.
The truthiness test fires first, so a None or empty cell yields the
default single-element list and `.split` is only reached on a non-empty
string. -/
def techStackOf (v : Option String) : List String :=
  match v with
  | some s => if s = "" then ["Unknown"] else pySplit s
  | none => ["Unknown"]

/-- The dict literal built for one row by the loop in `load_projects`, with
field expressions evaluated in source order.  `row["is_current"].lower()`
is the one unguarded attribute access: when that cell is `None` (a row
shorter than the header) it raises `AttributeError`; every other field is
behind an `or` default or a truthiness test and tolerates `None`. -/
def rowToProject (row : PyRow) : Except String ProjectRecord := do
  let titleV ← getItem row "title"
  let descrV ← getItem row "description"
  let techV ← getItem row "tech_stack"
  let catV ← getItem row "category"
  let ghV ← getItem row "github_url"
  let demoV ← getItem row "demo_url"
  let curV ← getItem row "is_current"
  let isCur ←
    match curV with
    | some s => pure (pyLower s == "true")
    | none => Except.error "AttributeError: NoneType has no attribute lower"
  let imgV ← getItem row "image_url"
  pure
    { title := pyOr titleV "Untitled Project"
      description := pyOr descrV "No description provided"
      tech_stack := techStackOf techV
      category := pyOr catV "other"
      github_url := pyOr ghV "#"
      demo_url := pyOr demoV "#"
      is_current := isCur
      image_url := pyOr imgV "/static/images/projects/default.png" }

/-- The function `PortfolioData.load_projects`: load the validated rows, then transform
each into a `ProjectRecord`.  The transformation loop sits outside any
`try`, so an exception in it propagates to the caller. -/
def load_projects (fs : FileState) :
    Except String (List ProjectRecord × List Diag) := do
  let (rows, diags) ← load_from_csv fs "data/projects.csv" projectFields
  let projects ← rows.mapM rowToProject
  pure (projects, diags)

/-- One entry of the static `experience` list. -/
structure ExperienceItem where
  title : String
  description : String
deriving DecidableEq

/-- The static `education` block. -/
structure Education where
  degree : String
  level : String
  courses : String
deriving DecidableEq

/-- The static `contact` block. -/
structure Contact where
  email : String
  whatsapp : String
  whatsapp_url : String
  linkedin : String
  linkedin_url : String
  github : String
  github_url : String
  blogger : String
deriving DecidableEq

/-- The static `stats` block. -/
structure Stats where
  projects_completed : String
  technologies_mastered : String
  years_coding : String
  github_repos : String
deriving DecidableEq

/-- The aggregate view-model returned by `get_portfolio_data`. -/
structure PortfolioAggregate where
  name : String
  title : String
  about : String
  experience : List ExperienceItem
  education : Education
  blog_posts : List PyRow
  projects : List ProjectRecord
  certifications : List PyRow
  contact : Contact
  stats : Stats
deriving DecidableEq

/-- The function `PortfolioData.get_portfolio_data`: static profile constants merged
with fresh invocations of the three loaders, evaluated in the order of the
dict literal (blog posts, then projects, then certifications).  Nothing
here catches exceptions, so any exception a loader raises propagates. -/
def get_portfolio_data (blogFs projFs certFs : FileState) :
    Except String PortfolioAggregate := do
  let blogPair ← load_blog_posts blogFs
  let projPair ← load_projects projFs
  let certPair ← load_certifications certFs
  pure
    { name := "Adem Youssfi"
      title := "AI Expert | Full Stack Developer | Technical Educator"
      about := "A results-driven Computer Science student with over five years of hands-on experience in full-stack development and AI. I have a proven ability to build high-performance, ML-powered applications, lead technical teams, and educate peers through workshops and technical articles. My experience includes a web development internship where I developed over 22 unique web pages for a large-scale e-commerce marketplace. I am passionate about developing scalable, well-documented software and am always eager to learn new technologies."
      experience :=
        [{ title := "Web Development Intern"
           description := "Developed over 22 unique web pages and components for a large-scale e-commerce marketplace project within one month. Contributed to a significant project that has been under continuous development for two years, demonstrating adaptability and rapid integration into existing complex codebase." },
         { title := "Technical Educator & Workshop Leader"
           description := "Provided private lessons in algorithmics, problem-solving, and web development. Organized and led comprehensive workshops on Flutter, software design, API/backend architecture, AI/ML, and LLM API integration." },
         { title := "Project Team Leader & System Architect"
           description := "Led development teams of 3-5 members in delivering complex software projects from conception to deployment. Created comprehensive system architecture using UML diagrams. Developed detailed API documentation and technical specifications. Implemented software design patterns and best practices." }]
      education :=
        { degree := "Bachelor of Science in Computer Science"
          level := "ISITCom (Higher Institute of Information and Communication Technologies), Sousse, Tunisia. Expected Graduation: June 2025 - Current Year: 3rd Year"
          courses := "Relevant Coursework: Data Structures & Algorithms, Database Systems, Software Engineering, Machine Learning, Web Development, Mobile Application Development, Computer Vision" }
      blog_posts := blogPair.1
      projects := projPair.1
      certifications := certPair.1
      contact :=
        { email := "ademyoussfi57@gmail.com"
          whatsapp := "+216 55 905 236"
          whatsapp_url := "https://wa.me/21655905236"
          linkedin := "Adem Youssfi"
          linkedin_url := "https://www.linkedin.com/in/adem-youssfi-2289672a4"
          github := "Ad2m1109"
          github_url := "https://github.com/Ad2m1109"
          blogger := "behindthecodebyadem.blogspot.com" }
      stats :=
        { projects_completed := "40+"
          technologies_mastered := "24+"
          years_coding := "5+"
          github_repos := "40+" } }

end Portfolio
namespace Portfolio

/-- A key is found in an association list exactly when it occurs among the
keys. -/
theorem lookup_isSome_iff (f : String) (l : List (String × Option String)) :
    (l.lookup f).isSome = true ↔ f ∈ l.map Prod.fst := by
  induction l with
  | nil => simp [List.lookup]
  | cons kv tl ih =>
    obtain ⟨k, v⟩ := kv
    by_cases h : f = k
    · subst h; simp [List.lookup]
    · simp only [List.lookup, beq_false_of_ne h]
      simp [ih, h]

/-- The keys of a `DictReader` row are exactly the header names, whatever
the number of cells: short rows are padded, long rows truncated. -/
theorem keys_rowToDict (fieldnames values : List String) :
    (rowToDict fieldnames values).map Prod.fst = fieldnames := by
  apply List.map_fst_zip
  simp
  omega

/-- Any header name can be looked up in any `DictReader` row under that
header. -/
theorem rLookup_isSome_of_mem {f : String} {fieldnames : List String} (values : List String)
    (h : f ∈ fieldnames) : (rLookup (rowToDict fieldnames values) f).isSome = true := by
  rw [rLookup, lookup_isSome_iff, List.map_reverse, List.mem_reverse, keys_rowToDict]
  exact h

/-- When the header contains every required column, every row passes the
`all(field in row ...)` validation, whatever its number of cells. -/
theorem validRow_rowToDict {expected fieldnames : List String} (values : List String)
    (h : ∀ f ∈ expected, f ∈ fieldnames) :
    validRow expected (rowToDict fieldnames values) = true := by
  rw [validRow, List.all_eq_true]
  intro f hf
  exact rLookup_isSome_of_mem values (h f hf)

/-- When the header contains every required column, the reading loop keeps
every non-blank line, in order, and emits no diagnostic. -/
theorem processRows_keep_all {expected fieldnames : List String} (path : String)
    (h : ∀ f ∈ expected, f ∈ fieldnames) (ls : List String) :
    processRows path fieldnames expected ls =
      ((ls.filter fun l => !(l == "")).map fun l => rowToDict fieldnames (pySplit l), []) := by
  induction ls with
  | nil => rfl
  | cons l ls ih =>
    rw [processRows]
    by_cases hl : l = ""
    · subst hl; simp [ih]
    · simp [hl, ih, validRow_rowToDict _ h]

/-- Inversion on a successful `rowToProject`: each column was present, the
`is_current` cell was a string (not the `None` padding), and the record is
the dict literal over those cells. -/
theorem rowToProject_ok_inv {row : PyRow} {rec : ProjectRecord}
    (h : rowToProject row = Except.ok rec) :
    ∃ titleV descrV techV catV ghV demoV cur imgV,
      rLookup row "title" = some titleV ∧
      rLookup row "description" = some descrV ∧
      rLookup row "tech_stack" = some techV ∧
      rLookup row "category" = some catV ∧
      rLookup row "github_url" = some ghV ∧
      rLookup row "demo_url" = some demoV ∧
      rLookup row "is_current" = some (some cur) ∧
      rLookup row "image_url" = some imgV ∧
      rec = { title := pyOr titleV "Untitled Project"
              description := pyOr descrV "No description provided"
              tech_stack := techStackOf techV
              category := pyOr catV "other"
              github_url := pyOr ghV "#"
              demo_url := pyOr demoV "#"
              is_current := (pyLower cur == "true")
              image_url := pyOr imgV "/static/images/projects/default.png" } := by
  simp only [rowToProject, getItem, bind, Except.bind, pure] at h
  rcases h1 : rLookup row "title" with _ | titleV
  · rw [h1] at h; simp [Except.pure] at h
  rw [h1] at h
  rcases h2 : rLookup row "description" with _ | descrV
  · rw [h2] at h; simp [Except.pure] at h
  rw [h2] at h
  rcases h3 : rLookup row "tech_stack" with _ | techV
  · rw [h3] at h; simp [Except.pure] at h
  rw [h3] at h
  rcases h4 : rLookup row "category" with _ | catV
  · rw [h4] at h; simp [Except.pure] at h
  rw [h4] at h
  rcases h5 : rLookup row "github_url" with _ | ghV
  · rw [h5] at h; simp [Except.pure] at h
  rw [h5] at h
  rcases h6 : rLookup row "demo_url" with _ | demoV
  · rw [h6] at h; simp [Except.pure] at h
  rw [h6] at h
  rcases h7 : rLookup row "is_current" with _ | curV
  · rw [h7] at h; simp [Except.pure] at h
  rw [h7] at h
  rcases curV with _ | cur
  · simp [Except.pure] at h
  rcases h8 : rLookup row "image_url" with _ | imgV
  · rw [h8] at h; simp [Except.pure] at h
  rw [h8] at h
  simp only [Except.pure] at h
  injection h with h9
  subst h9
  exact ⟨titleV, descrV, techV, catV, ghV, demoV, cur, imgV,
    rfl, rfl, rfl, rfl, rfl, rfl, rfl, rfl, rfl⟩

end Portfolio
namespace Portfolio

/-- Python str.split never returns an empty list: even the empty string splits
into `[""]`. -/
theorem pySplit_ne_nil (s : String) : pySplit s ≠ [] := by
  rw [pySplit, List.splitOn]
  intro h
  exact List.splitOnP_ne_nil _ _ (by simpa using h)

/-- The `tech_stack` of a built project is never the empty sequence. -/
theorem techStackOf_ne_nil (v : Option String) : techStackOf v ≠ [] := by
  rcases v with _ | s
  · simp [techStackOf]
  · by_cases h : s = "" <;> simp [techStackOf, h, pySplit_ne_nil]

/-- Splitting on commas is a left inverse of joining with commas, for a
non-empty list of comma-free pieces. -/
theorem pySplit_pyJoin (names : List String) (hne : names ≠ [])
    (hnc : ∀ x ∈ names, ',' ∉ x.data) :
    pySplit (pyJoin names) = names := by
  rw [pyJoin, pySplit]
  have hdata : (String.mk (List.intercalate [','] (names.map String.data))).data
      = List.intercalate [','] (names.map String.data) := rfl
  rw [hdata, List.splitOn_intercalate]
  · rw [List.map_map]
    exact List.map_id'' (fun s => rfl) names
  · intro l hl
    obtain ⟨x, hx, rfl⟩ := List.mem_map.mp hl
    exact hnc x hx
  · simpa using hne

/-- C1 (counterexample): a certifications row with one fewer comma-separated
value than headers is NOT skipped — `DictReader` pads the missing `url`
cell with `None`, so the `field in row` validation passes, the row appears
in the loaded sequence, and no warning diagnostic is emitted. -/
theorem C1_short_row_not_skipped :
    load_certifications
        (.readable ["title,issuer,date,category,url",
                    "AWS Cert,Amazon,2023-01-01,cloud"] false) =
      Except.ok ([[("title", some "AWS Cert"), ("issuer", some "Amazon"),
                   ("date", some "2023-01-01"), ("category", some "cloud"),
                   ("url", none)]], []) := by
  rfl

/-- C1 (amended): when the header defines every required column, no data
row is skipped at all: every non-blank data row — including a row with
fewer comma-separated values than headers, whose missing cells are filled
with null — appears in the returned sequence in source order, and no
diagnostic is emitted.  A row is skipped only when the header itself lacks
a required column. -/
theorem C1_no_row_skipped_under_full_header (path : String)
    (expected : List String) (header : String) (rest : List String)
    (hHdr : ∀ f ∈ expected, f ∈ parseLine header) :
    load_from_csv (.readable (header :: rest) false) path expected =
      Except.ok ((rest.filter fun l => !(l == "")).map
        (fun l => rowToDict (parseLine header) (pySplit l)), []) := by
  simp only [load_from_csv, pure]
  rw [processRows_keep_all path hHdr]
  rfl

/-- Witness for `C1_no_row_skipped_under_full_header` at the concrete
certifications scenario with a short row. -/
theorem C1_no_row_skipped_witness :
    load_from_csv
        (.readable ["title,issuer,date,category,url",
                    "AWS Cert,Amazon,2023-01-01,cloud"] false)
        "data/certifications.csv" certFields =
      Except.ok ((["AWS Cert,Amazon,2023-01-01,cloud"].filter
          fun l => !(l == "")).map
        (fun l => rowToDict (parseLine "title,issuer,date,category,url")
          (pySplit l)), []) :=
  C1_no_row_skipped_under_full_header "data/certifications.csv" certFields
    "title,issuer,date,category,url" ["AWS Cert,Amazon,2023-01-01,cloud"]
    (by decide)

/-- C2 (failing input): a projects source whose header defines all eight
required columns but whose data row has only four values passes the
loader validation (missing cells become null), and then
`row["is_current"].lower()` raises `AttributeError`, which propagates out
of `get_portfolio_data` — refuting the claim that no exception can
surface. -/
theorem C2_exception_escapes_aggregate :
    get_portfolio_data .missing
        (.readable
          ["title,description,tech_stack,category,github_url,demo_url,is_current,image_url",
           "T,D,Py,web"] false)
        .missing =
      Except.error "AttributeError: NoneType has no attribute lower" := by
  rfl

/-- C3: for a well-formed source (header covering the required columns, no
blank data line, every data line with as many values as the header), the
loader returns exactly one row per data line, in source order, with no
duplication and no diagnostics. -/
theorem C3_wellformed_length_and_order (path : String)
    (expected : List String) (header : String) (rest : List String)
    (hHdr : ∀ f ∈ expected, f ∈ parseLine header)
    (hNB : ∀ l ∈ rest, l ≠ "")
    (hLen : ∀ l ∈ rest, (pySplit l).length = (parseLine header).length) :
    load_from_csv (.readable (header :: rest) false) path expected =
      Except.ok (rest.map (fun l => rowToDict (parseLine header) (pySplit l)), []) ∧
    (rest.map fun l => rowToDict (parseLine header) (pySplit l)).length
      = rest.length := by
  constructor
  · simp only [load_from_csv, pure]
    rw [processRows_keep_all path hHdr]
    congr 1
    rw [List.filter_eq_self.mpr]
    intro a ha
    simpa using hNB a ha
  · exact List.length_map _ _

/-- Witness for `C3_wellformed_length_and_order` at a two-row
certifications file. -/
theorem C3_wellformed_witness :
    load_from_csv
        (.readable ["title,issuer,date,category,url",
                    "A,B,C,D,E", "F,G,H,I,J"] false)
        "data/certifications.csv" certFields =
      Except.ok ((["A,B,C,D,E", "F,G,H,I,J"].map
        (fun l => rowToDict (parseLine "title,issuer,date,category,url")
          (pySplit l))), []) ∧
    ((["A,B,C,D,E", "F,G,H,I,J"].map
        (fun l => rowToDict (parseLine "title,issuer,date,category,url")
          (pySplit l)))).length = (["A,B,C,D,E", "F,G,H,I,J"]).length :=
  C3_wellformed_length_and_order "data/certifications.csv" certFields
    "title,issuer,date,category,url" ["A,B,C,D,E", "F,G,H,I,J"]
    (by decide) (by decide) (by decide)

/-- C4: a built project record has `is_current` true exactly when the raw
cell, compared case-insensitively, equals "true"; any other raw string,
the empty string included, yields false. -/
theorem C4_is_current_iff (row : PyRow) (rec : ProjectRecord) (raw : String)
    (hcur : rLookup row "is_current" = some (some raw))
    (hok : rowToProject row = Except.ok rec) :
    rec.is_current = true ↔ caseInsensitiveEq raw "true" := by
  obtain ⟨t, d, te, c, g, dm, cu, im, _, _, _, _, _, _, h7, _, hrec⟩ :=
    rowToProject_ok_inv hok
  rw [hcur] at h7
  obtain rfl : raw = cu := by injection h7 with h9; injection h9
  subst hrec
  simp only [caseInsensitiveEq, beq_iff_eq]
  rw [show pyLower "true" = "true" from rfl]

/-- Witness for `C4_is_current_iff` on a row whose `is_current` cell is
"TRUE". -/
theorem C4_is_current_witness :
    ({ title := "P", description := "D", tech_stack := ["Py"],
       category := "web", github_url := "g", demo_url := "d",
       is_current := true, image_url := "i" } : ProjectRecord).is_current
        = true ↔ caseInsensitiveEq "TRUE" "true" :=
  C4_is_current_iff
    (rowToDict projectFields (pySplit "P,D,Py,web,g,d,TRUE,i"))
    { title := "P", description := "D", tech_stack := ["Py"],
      category := "web", github_url := "g", demo_url := "d",
      is_current := true, image_url := "i" } "TRUE" (by rfl) (by rfl)

/-- C5: a valid row whose optional fields are all empty strings builds the
fully defaulted record: title "Untitled Project", description
"No description provided", tech_stack ["Unknown"], category "other",
github_url and demo_url "#", image_url the fallback asset path. -/
theorem C5_empty_fields_default (row : PyRow) (s : String)
    (h1 : rLookup row "title" = some (some ""))
    (h2 : rLookup row "description" = some (some ""))
    (h3 : rLookup row "tech_stack" = some (some ""))
    (h4 : rLookup row "category" = some (some ""))
    (h5 : rLookup row "github_url" = some (some ""))
    (h6 : rLookup row "demo_url" = some (some ""))
    (h7 : rLookup row "is_current" = some (some s))
    (h8 : rLookup row "image_url" = some (some "")) :
    rowToProject row =
      Except.ok { title := "Untitled Project"
                  description := "No description provided"
                  tech_stack := ["Unknown"]
                  category := "other"
                  github_url := "#"
                  demo_url := "#"
                  is_current := (pyLower s == "true")
                  image_url := "/static/images/projects/default.png" } := by
  simp only [rowToProject, getItem, bind, Except.bind, pure,
    h1, h2, h3, h4, h5, h6, h7, h8]
  rfl

/-- Witness for `C5_empty_fields_default` on the row parsed from the line
",,,,,,true,": every optional cell empty, `is_current` equal to "true". -/
theorem C5_empty_fields_witness :
    rowToProject (rowToDict projectFields (pySplit ",,,,,,true,")) =
      Except.ok { title := "Untitled Project"
                  description := "No description provided"
                  tech_stack := ["Unknown"]
                  category := "other"
                  github_url := "#"
                  demo_url := "#"
                  is_current := (pyLower "true" == "true")
                  image_url := "/static/images/projects/default.png" } :=
  C5_empty_fields_default (rowToDict projectFields (pySplit ",,,,,,true,"))
    "true" (by rfl) (by rfl) (by rfl) (by rfl) (by rfl) (by rfl) (by rfl)
    (by rfl)

/-- C6: a missing source file makes the loader return the empty sequence
with a warning diagnostic, raising nothing. -/
theorem C6_missing_source_empty (path : String) (expected : List String) :
    load_from_csv .missing path expected =
      Except.ok ([], [⟨Level.warning,
        path ++ " not found. Returning empty list."⟩]) := by
  rfl

/-- C7: when the source exists but reading it raises an I/O or encoding
error at any point, the loader returns the empty sequence — whatever rows
were parsed before the failure — with an error diagnostic, raising
nothing. -/
theorem C7_unreadable_source_empty (path : String) (expected : List String)
    (lines : List String) :
    load_from_csv (.readable lines true) path expected =
      Except.ok ([], [⟨Level.error, "Error reading " ++ path⟩]) := by
  cases lines <;> rfl

/-- C8: joining the `tech_stack` of a built record with commas and re-splitting
on commas reproduces the very same sequence of technology names, whenever
the raw field was non-empty and no name embeds a comma. -/
theorem C8_tech_stack_roundtrip (row : PyRow) (rec : ProjectRecord)
    (raw : String)
    (htech : rLookup row "tech_stack" = some (some raw))
    (hraw : raw ≠ "")
    (hok : rowToProject row = Except.ok rec)
    (hnc : ∀ x ∈ rec.tech_stack, ',' ∉ x.data) :
    pySplit (pyJoin rec.tech_stack) = rec.tech_stack := by
  obtain ⟨t, d, te, c, g, dm, cu, im, _, _, h3, _, _, _, _, _, hrec⟩ :=
    rowToProject_ok_inv hok
  rw [htech] at h3
  obtain rfl : some raw = te := by injection h3
  have hstack : rec.tech_stack = pySplit raw := by
    rw [hrec]; simp [techStackOf, hraw]
  refine pySplit_pyJoin rec.tech_stack ?_ hnc
  rw [hstack]
  exact pySplit_ne_nil raw

/-- Witness for `C8_tech_stack_roundtrip` on a row whose raw `tech_stack`
cell holds two comma-separated names. -/
theorem C8_tech_stack_witness :
    pySplit (pyJoin ({ title := "P", description := "D",
                       tech_stack := ["Python", "Flask"],
                       category := "web", github_url := "g",
                       demo_url := "d", is_current := true,
                       image_url := "i" } : ProjectRecord).tech_stack) =
      ({ title := "P", description := "D",
         tech_stack := ["Python", "Flask"], category := "web",
         github_url := "g", demo_url := "d", is_current := true,
         image_url := "i" } : ProjectRecord).tech_stack :=
  C8_tech_stack_roundtrip
    [("title", some "P"), ("description", some "D"),
     ("tech_stack", some "Python,Flask"), ("category", some "web"),
     ("github_url", some "g"), ("demo_url", some "d"),
     ("is_current", some "true"), ("image_url", some "i")]
    { title := "P", description := "D", tech_stack := ["Python", "Flask"],
      category := "web", github_url := "g", demo_url := "d",
      is_current := true, image_url := "i" } "Python,Flask"
    (by rfl) (by decide) (by rfl) (by decide)

/-- C9: the certifications and blog-post loaders pass the cells of every
validated row through verbatim: the documented certifications scenario
yields exactly one record carrying its five values unchanged, and a
blog-posts row behaves the same. -/
theorem C9_passthrough_verbatim :
    load_certifications (.readable ["title,issuer,date,category,url",
        "AWS Cert,Amazon,2023-01-01,cloud,https://example.com"] false) =
      Except.ok ([[("title", some "AWS Cert"), ("issuer", some "Amazon"),
                   ("date", some "2023-01-01"), ("category", some "cloud"),
                   ("url", some "https://example.com")]], []) ∧
    load_blog_posts (.readable ["title,date,description,url,image_url",
        "Post,2024-05-01,A post,https://example.com/p,img.png"] false) =
      Except.ok ([[("title", some "Post"), ("date", some "2024-05-01"),
                   ("description", some "A post"),
                   ("url", some "https://example.com/p"),
                   ("image_url", some "img.png")]], []) :=
  ⟨rfl, rfl⟩

/-- C10: every project record a successful `load_projects` run builds has
a non-empty `tech_stack`: an empty or null raw cell becomes ["Unknown"],
and splitting a non-empty string always yields at least one piece. -/
theorem C10_tech_stack_nonempty (row : PyRow) (rec : ProjectRecord)
    (hok : rowToProject row = Except.ok rec) : rec.tech_stack ≠ [] := by
  obtain ⟨t, d, te, c, g, dm, cu, im, _, _, _, _, _, _, _, _, hrec⟩ :=
    rowToProject_ok_inv hok
  subst hrec
  exact techStackOf_ne_nil te

/-- Witness for `C10_tech_stack_nonempty` on a fully populated row. -/
theorem C10_tech_stack_witness :
    ({ title := "P", description := "D", tech_stack := ["Py"],
       category := "web", github_url := "g", demo_url := "d",
       is_current := true, image_url := "i" } : ProjectRecord).tech_stack
      ≠ [] :=
  C10_tech_stack_nonempty
    (rowToDict projectFields (pySplit "P,D,Py,web,g,d,true,i"))
    { title := "P", description := "D", tech_stack := ["Py"],
      category := "web", github_url := "g", demo_url := "d",
      is_current := true, image_url := "i" } (by rfl)

end Portfolio
